import Mathlib

/-!
Shallow embedding of the checkout / cart / manual-sale / analytics logic of the
Shoe_business_POS_system repository.

Sources embedded (translated from the TypeScript as written):
- the Cart component of src/src/components/SalesHistory.tsx
  (checkout, updateQuantity, removeFromCart);
- addToCart of the Sales page (src/unnamed/part_001);
- handleSubmit / calculateFinalAmount of src/src/components/SalesForm.tsx;
- the analytics memo (topSelling grouping and sort) of src/src/pages/Inventory.tsx.

Modelling conventions:
- money amounts are rationals, quantities and stock counts are integers
  (JS numbers, with the exact decimal arithmetic the spec intends);
- the external Supabase calls are modelled by explicit oracles: a Bool for the
  batch insert into the sales table, and a per-item Bool predicate for each
  stock UPDATE issued inside Promise.all (a failed item's update is not
  applied, the other updates still run, matching Promise.all semantics);
- the alert shown to the user is abstracted to the result constructor; only
  the success branch shows the success alert, every other branch shows an
  error alert;
- the ES2019 stable Array.prototype.sort with comparator (a, b) => b - a is
  modelled by insertion sort with the reflexive descending-quantity relation,
  which is the unique stable descending sort;
- JS object key insertion order (for non-numeric string keys) is modelled by
  an association list where a new key is appended and an existing key is
  updated in place.
-/

namespace POS

/-- A catalog row, with the fields the cart and checkout code reads. In the
source the products table carries both a price and a sellingPrice column
(plus a costPrice in the Cart component's item type); all three are kept. -/
structure Product where
  id : Nat
  name : String
  price : ℚ
  sellingPrice : Option ℚ
  costPrice : ℚ
  stock : ℤ
deriving Repr, DecidableEq

/-- The CartItem interface of the Cart component: a product snapshot taken at
add-to-cart time plus the chosen quantity. The stock field is the cached
stock snapshot, not a live catalog read. -/
structure CartItem where
  id : Nat
  name : String
  price : ℚ
  sellingPrice : Option ℚ
  costPrice : ℚ
  stock : ℤ
  qty : ℤ
deriving Repr, DecidableEq

/-- A row of the sales table (the sale ledger). Manual-form rows carry no
product reference, so those fields are optional. -/
structure Sale where
  product_id : Option Nat
  product_name : Option String
  quantity : ℤ
  unit_price : ℚ
  total : ℚ
  profit : ℚ
  payment_method : String
  customer : String
  discount : ℚ
deriving Repr, DecidableEq

/-- The two external tables the code touches. -/
structure DB where
  products : List Product
  sales : List Sale
deriving Repr, DecidableEq

/-- JS truthiness fallback x || y for a possibly-missing numeric field:
undefined and 0 both fall through to the fallback. -/
def jsOr (v : Option ℚ) (fallback : ℚ) : ℚ :=
  match v with
  | some x => if x = 0 then fallback else x
  | none => fallback

/-- The sale row the checkout builds for one cart item (the salesData map in
the Cart component): total is price times qty, profit uses the JS fallback
(item.sellingPrice || item.price) minus costPrice, payment method is the
hard-coded "Cash", customer "Walk-in", discount 0. -/
def saleOf (item : CartItem) : Sale :=
  { product_id := some item.id
    product_name := some item.name
    quantity := item.qty
    unit_price := item.price
    total := item.price * (item.qty : ℚ)
    profit := (jsOr item.sellingPrice item.price - item.costPrice) * (item.qty : ℚ)
    payment_method := "Cash"
    customer := "Walk-in"
    discount := 0 }

/-- Result of one checkout call, one constructor per exit path of the
source's checkout function. Only success shows the success alert; the other
four show an error alert. -/
inductive CheckoutResult where
  | emptyCart
  | outOfStock
  | ledgerError
  | stockError
  | success
deriving Repr, DecidableEq

/-- Whether the user is told the sale completed (the success alert) rather
than a failure alert. -/
def isReportedSuccess : CheckoutResult → Bool
  | .success => true
  | _ => false

/-- The stock UPDATE issued for a catalog row: the first cart item with a
matching id whose update call succeeded overwrites the row's stock with the
cached snapshot minus the quantity; rows without a successful matching
update are left as they are. -/
def stockStep (cart : List CartItem) (stockOk : CartItem → Bool) (p : Product) : Product :=
  match cart.find? (fun i => i.id == p.id && stockOk i) with
  | some i => { p with stock := i.stock - i.qty }
  | none => p

/-- The checkout function of the Cart component. Validation: non-empty cart,
then no item with qty above its cached stock snapshot (no catalog re-read).
Commit: batch insert of the sale rows (abort unchanged if it fails), then
one stock UPDATE per item inside Promise.all; if any update fails the catch
block reports failure even though the inserted rows stay. -/
def checkout (cart : List CartItem) (db : DB) (insertOk : Bool)
    (stockOk : CartItem → Bool) : CheckoutResult × DB :=
  if cart.isEmpty then (.emptyCart, db)
  else if cart.any (fun i => decide (i.stock < i.qty)) then (.outOfStock, db)
  else if !insertOk then (.ledgerError, db)
  else
    let db1 : DB := { db with sales := db.sales ++ cart.map saleOf }
    let db2 : DB := { db1 with products := db1.products.map (stockStep cart stockOk) }
    if cart.all stockOk then (.success, db2) else (.stockError, db2)

/-- The cart kept by the UI after a checkout: cleared only on the success
path, retained on every failure path. -/
def cartAfter (r : CheckoutResult) (cart : List CartItem) : List CartItem :=
  if r = .success then [] else cart

/-- The cart line built from a product row when it is first added (the
spread of the product plus qty 1). -/
def cartItemOfProduct (p : Product) : CartItem :=
  { id := p.id
    name := p.name
    price := p.price
    sellingPrice := p.sellingPrice
    costPrice := p.costPrice
    stock := p.stock
    qty := 1 }

/-- addToCart of the Sales page: if a line with the product's id exists its
qty is incremented by one (no stock cap, no stock-limit report), otherwise
the product is appended with qty 1. -/
def addToCart (cart : List CartItem) (p : Product) : List CartItem :=
  if cart.any (fun i => i.id == p.id) then
    cart.map (fun i => if i.id = p.id then { i with qty := i.qty + 1 } else i)
  else cart ++ [cartItemOfProduct p]

/-- Quantity held in the cart for a given product id (0 when absent), read
off the first matching line as the UI does. -/
def cartQty (cart : List CartItem) (pid : Nat) : ℤ :=
  ((cart.find? (fun i => i.id == pid)).map CartItem.qty).getD 0

/-- The per-item step of updateQuantity in the Cart component: on the
matching line the delta is applied, except that a result above the cached
stock or at most 0 leaves the line unchanged. -/
def updStep (pid : Nat) (change : ℤ) (item : CartItem) : CartItem :=
  if item.id = pid then
    let newQty := item.qty + change
    if newQty > item.stock then item
    else if newQty > 0 then { item with qty := newQty } else item
  else item

/-- updateQuantity of the Cart component: map the step over the cart, then
filter out lines whose qty is not positive (the filter in the source). -/
def updateQuantity (cart : List CartItem) (pid : Nat) (change : ℤ) : List CartItem :=
  (cart.map (updStep pid change)).filter (fun i => decide (0 < i.qty))

/-- The JS String.prototype.trim: strip whitespace from both ends, written
over the character list so it evaluates by reduction. -/
def jsTrim (s : String) : String :=
  String.mk (((s.data.dropWhile Char.isWhitespace).reverse.dropWhile Char.isWhitespace).reverse)

/-- The form state of the manual sales form that handleSubmit reads. -/
structure SaleFormData where
  customer : String
  total : ℚ
  payment_method : String
  discount : ℚ
deriving Repr, DecidableEq

/-- calculateFinalAmount of SalesForm: the base is the parsed custom amount
when the field is non-empty, else the running total; the discount percentage
is then taken off. -/
def calculateFinalAmount (d : SaleFormData) (customAmount : Option ℚ) : ℚ :=
  let base := match customAmount with
    | some v => v
    | none => d.total
  base - base * d.discount / 100

/-- The row handleSubmit inserts: quantity is the constant 1, unit price and
total are both the final discounted amount, profit is 0.3 of it, and the
payment method and discount are copied from the form unvalidated. -/
def manualSaleRecord (d : SaleFormData) (customAmount : Option ℚ) : Sale :=
  { product_id := none
    product_name := none
    quantity := 1
    unit_price := calculateFinalAmount d customAmount
    total := calculateFinalAmount d customAmount
    profit := calculateFinalAmount d customAmount * (3 / 10)
    payment_method := d.payment_method
    customer := d.customer
    discount := d.discount }

/-- handleSubmit of SalesForm: reject (no write) when the trimmed customer
is empty or the final amount is not positive, otherwise insert exactly one
row into the sales table; the products table is never touched. The insert
oracle models the external write failing, in which case nothing changes. -/
def handleSubmit (d : SaleFormData) (customAmount : Option ℚ) (insertOk : Bool)
    (db : DB) : Option DB :=
  if jsTrim d.customer = "" ∨ calculateFinalAmount d customAmount ≤ 0 then none
  else if insertOk then
    some { db with sales := db.sales ++ [manualSaleRecord d customAmount] }
  else none

/-- The object key the analytics reduce groups a sale under: product_name,
with a missing field coerced to the string form of undefined as JS does. -/
def jsNameKey (s : Sale) : String :=
  s.product_name.getD "undefined"

/-- One step of the grouping reduce: add q under the key, updating an
existing key in place and appending a new key at the end, exactly the JS
object insertion-order behaviour for string keys. -/
def bump (acc : List (String × ℤ)) (name : String) (q : ℤ) : List (String × ℤ) :=
  match acc with
  | [] => [(name, q)]
  | (k, v) :: rest => if k = name then (k, v + q) :: rest else (k, v) :: bump rest name q

/-- The grouping reduce of the analytics memo: quantities summed per product
name, keys in first-occurrence order. -/
def groupQuantities (sales : List Sale) : List (String × ℤ) :=
  sales.foldl (fun acc s => bump acc (jsNameKey s) s.quantity) []

/-- Descending-quantity relation used to model the sort comparator
(a, b) => b - a; it is reflexive, so insertion sort under it is the stable
descending sort that ES2019 specifies. -/
def qtyGE (a b : String × ℤ) : Prop := b.2 ≤ a.2

instance : DecidableRel qtyGE := fun a b => inferInstanceAs (Decidable (b.2 ≤ a.2))

instance : IsTotal (String × ℤ) qtyGE := ⟨fun a b => le_total b.2 a.2⟩

instance : IsTrans (String × ℤ) qtyGE := ⟨fun _ _ _ h1 h2 => le_trans h2 h1⟩

/-- The topSelling analytic of the Inventory page: group by product name,
sum quantities, stable sort descending by summed quantity. -/
def topSelling (sales : List Sale) : List (String × ℤ) :=
  List.insertionSort qtyGE (groupQuantities sales)

/-- Lexicographic comparison of character lists by code point, used to spell
out the ascending-name order the claim's tie-break asserts. -/
def charsLE : List Char → List Char → Bool
  | [], _ => true
  | _ :: _, [] => false
  | a :: as, b :: bs =>
      if a.toNat < b.toNat then true
      else if b.toNat < a.toNat then false
      else charsLE as bs

/-- Ascending name order on the grouped keys. -/
def nameLE (a b : String) : Bool := charsLE a.data b.data

/-- The ordering the claim asserts for topSelling: descending by quantity
with ties in ascending name order (checked on adjacent pairs). -/
def sortedByQtyThenName : List (String × ℤ) → Bool
  | [] => true
  | [_] => true
  | a :: b :: rest =>
      (decide (b.2 < a.2) || (decide (a.2 = b.2) && nameLE a.1 b.1))
        && sortedByQtyThenName (b :: rest)

/-- Sum of the quantities of the ledger entries grouped under a name. -/
def sumQtyFor (sales : List Sale) (name : String) : ℤ :=
  ((sales.filter (fun s => jsNameKey s == name)).map Sale.quantity).sum

/-- The quantity the grouped association list holds for a name (0 when the
name is absent, as the JS read of a possibly missing key with a 0 fallback
does). -/
def jsVal (l : List (String × ℤ)) (name : String) : ℤ :=
  (((l.find? (fun kv => kv.1 == name)).map Prod.snd).getD 0)

/-! Concrete data used by the counterexamples and witnesses below. -/

/-- Cart line holding a stale stock snapshot of 5 for a product whose
catalog stock has meanwhile dropped to 2. -/
def cexItem1 : CartItem :=
  { id := 1, name := "shoe", price := 150, sellingPrice := some 150,
    costPrice := 100, stock := 5, qty := 3 }

/-- Catalog state in which the product of cexItem1 has only 2 left. -/
def cexDB1 : DB :=
  { products := [{ id := 1, name := "shoe", price := 150, sellingPrice := some 150,
                   costPrice := 100, stock := 2 }], sales := [] }

/-- Cart line whose snapshot agrees with the catalog, quantity at the cap. -/
def wItem1 : CartItem :=
  { id := 7, name := "boot", price := 200, sellingPrice := none,
    costPrice := 120, stock := 4, qty := 4 }

/-- Catalog state matching wItem1. -/
def wDB1 : DB :=
  { products := [{ id := 7, name := "boot", price := 200, sellingPrice := none,
                   costPrice := 120, stock := 4 }], sales := [] }

/-- A valid cart line used to exercise the ledger-failure path. -/
def wItem2 : CartItem :=
  { id := 3, name := "heel", price := 90, sellingPrice := some 95,
    costPrice := 60, stock := 6, qty := 2 }

/-- Catalog state matching wItem2. -/
def wDB2 : DB :=
  { products := [{ id := 3, name := "heel", price := 90, sellingPrice := some 95,
                   costPrice := 60, stock := 6 }], sales := [] }

/-- A valid cart line used to exercise the stock-update-failure path. -/
def cexItem3 : CartItem :=
  { id := 2, name := "loafer", price := 80, sellingPrice := some 80,
    costPrice := 50, stock := 9, qty := 1 }

/-- Catalog state matching cexItem3. -/
def cexDB3 : DB :=
  { products := [{ id := 2, name := "loafer", price := 80, sellingPrice := some 80,
                   costPrice := 50, stock := 9 }], sales := [] }

/-- Cart line whose snapshot of 8 is stale: the catalog has 1 left, below
the requested quantity of 6. -/
def cexItem4 : CartItem :=
  { id := 4, name := "sandal", price := 60, sellingPrice := some 60,
    costPrice := 30, stock := 8, qty := 6 }

/-- Catalog state in which the product of cexItem4 has only 1 left. -/
def cexDB4 : DB :=
  { products := [{ id := 4, name := "sandal", price := 60, sellingPrice := some 60,
                   costPrice := 30, stock := 1 }], sales := [] }

/-- Cart line whose quantity exceeds even its own cached snapshot. -/
def wItem4 : CartItem :=
  { id := 4, name := "sandal", price := 60, sellingPrice := some 60,
    costPrice := 30, stock := 2, qty := 9 }

/-- The Scenario A cart line: cost 100, sell 150, stock 10, quantity 3. -/
def scenItem : CartItem :=
  { id := 10, name := "runner", price := 150, sellingPrice := some 150,
    costPrice := 100, stock := 10, qty := 3 }

/-- The Scenario A catalog state. -/
def scenDB : DB :=
  { products := [{ id := 10, name := "runner", price := 150, sellingPrice := some 150,
                   costPrice := 100, stock := 10 }], sales := [] }

/-- A manual-form submission with a 10 percent discount on a base of 100. -/
def cexForm5 : SaleFormData :=
  { customer := "Walk-in", total := 100, payment_method := "Cash", discount := 10 }

/-- A manual-form submission whose payment method is Bitcoin. -/
def cexForm6 : SaleFormData :=
  { customer := "Alice", total := 50, payment_method := "Bitcoin", discount := 0 }

/-- An empty database. -/
def cexDB6 : DB := { products := [], sales := [] }

/-- A second Bitcoin submission, used by the witness. -/
def wForm6 : SaleFormData :=
  { customer := "Bob", total := 40, payment_method := "Bitcoin", discount := 0 }

/-- An empty database for the witness. -/
def wDB6 : DB := { products := [], sales := [] }

/-- A product with stock 1, added twice to the cart. -/
def cexProd7 : Product :=
  { id := 5, name := "flip", price := 20, sellingPrice := some 20,
    costPrice := 10, stock := 1 }

/-- A cart already holding one unit of cexProd7, the stock cap. -/
def cexCart7 : List CartItem := [cartItemOfProduct cexProd7]

/-- A product added to an empty cart by the witness. -/
def wProd7 : Product :=
  { id := 6, name := "clog", price := 35, sellingPrice := none,
    costPrice := 15, stock := 4 }

/-- A one-line cart with quantity 2 and stock 5. -/
def cexCart8 : List CartItem :=
  [{ id := 1, name := "trainer", price := 70, sellingPrice := some 70,
     costPrice := 40, stock := 5, qty := 2 }]

/-- A ledger row carrying only the fields the analytics reads. -/
def namedSale (n : String) (q : ℤ) : Sale :=
  { product_id := none, product_name := some n, quantity := q, unit_price := 0,
    total := 0, profit := 0, payment_method := "Cash", customer := "Walk-in",
    discount := 0 }

/-- Two ledger rows with equal quantities whose names are in descending
order of first occurrence. -/
def cexSales9 : List Sale := [namedSale "b" 1, namedSale "a" 1]

/-- A valid manual-form submission. -/
def wForm10 : SaleFormData :=
  { customer := "Walk-in", total := 100, payment_method := "M-Pesa", discount := 0 }

/-- An empty database for the manual-sale witness. -/
def wDB10 : DB := { products := [], sales := [] }

/-! Helper lemmas (shared; not tied to a single claim). -/

/-- Incrementing the quantity of the lines matching an id commutes with
looking up the first line with that id. -/
theorem bumpQty_find? (cart : List CartItem) (pid : Nat) :
    (cart.map (fun i => if i.id = pid then { i with qty := i.qty + 1 } else i)).find?
        (fun i => i.id == pid)
      = (cart.find? (fun i => i.id == pid)).map
          (fun i => if i.id = pid then { i with qty := i.qty + 1 } else i) := by
  rw [List.find?_map]
  have hp : ((fun i : CartItem => i.id == pid)
        ∘ fun i => if i.id = pid then { i with qty := i.qty + 1 } else i)
      = fun i : CartItem => i.id == pid := by
    funext i
    by_cases h : i.id = pid <;> simp [h]
  rw [hp]

/-- The updateQuantity step never turns a positive quantity nonpositive. -/
theorem updStep_pos (pid : Nat) (change : ℤ) (i : CartItem) (h : 0 < i.qty) :
    0 < (updStep pid change i).qty := by
  simp only [updStep]
  by_cases h1 : i.id = pid
  · simp only [if_pos h1]
    by_cases h2 : i.qty + change > i.stock
    · simp only [if_pos h2]
      exact h
    · simp only [if_neg h2]
      by_cases h3 : i.qty + change > 0
      · simp only [if_pos h3]
        exact h3
      · simp only [if_neg h3]
        exact h
  · simp only [if_neg h1]
    exact h

/-- An empty grouped list holds 0 for every name. -/
theorem jsVal_nil (name : String) : jsVal [] name = 0 := rfl

/-- One grouping step adds the quantity under exactly its own key. -/
theorem jsVal_bump (acc : List (String × ℤ)) (n : String) (q : ℤ) (name : String) :
    jsVal (bump acc n q) name = jsVal acc name + (if n = name then q else 0) := by
  induction acc with
  | nil =>
    by_cases h : n = name <;> simp [bump, jsVal, h]
  | cons kv rest ih =>
    obtain ⟨k, v⟩ := kv
    rw [bump]
    by_cases hk : k = n
    · rw [if_pos hk]
      by_cases hname : k = name
      · subst hk
        subst hname
        simp [jsVal]
      · have hn : ¬(n = name) := fun hc => hname (hk.trans hc)
        simp [jsVal, hname, hn]
    · rw [if_neg hk]
      by_cases hname : k = name
      · have hn : ¬(n = name) := fun hc => hk (by rw [hc, ← hname])
        simp [jsVal, hname, hn]
      · simp only [jsVal] at ih ⊢
        simp [List.find?_cons, hname, ih]

/-- The grouping fold accumulates, per name, the sum of the quantities of
the scanned ledger entries. -/
theorem jsVal_group (ss : List Sale) (acc : List (String × ℤ)) (name : String) :
    jsVal (ss.foldl (fun a s => bump a (jsNameKey s) s.quantity) acc) name
      = jsVal acc name + sumQtyFor ss name := by
  induction ss generalizing acc with
  | nil => simp [sumQtyFor]
  | cons s t ih =>
    rw [List.foldl_cons, ih, jsVal_bump]
    by_cases h : jsNameKey s = name
    · simp [sumQtyFor, List.filter_cons, h]
      ring
    · simp [sumQtyFor, List.filter_cons, h]

/-- Inserting an element preserves, for every quantity value, the sublist of
entries with that value, putting the new element first; this is the classic
per-value characterisation of stability. -/
theorem filter_orderedInsert (q : ℤ) (x : String × ℤ) (l : List (String × ℤ)) :
    (List.orderedInsert qtyGE x l).filter (fun y => y.2 == q)
      = (if x.2 = q then x :: l.filter (fun y => y.2 == q)
         else l.filter (fun y => y.2 == q)) := by
  induction l with
  | nil =>
    by_cases h : x.2 = q <;> simp [List.orderedInsert, List.filter_cons, h]
  | cons b t ih =>
    rw [List.orderedInsert]
    by_cases hr : qtyGE x b
    · rw [if_pos hr]
      by_cases hx : x.2 = q <;> simp [hx, List.filter_cons]
    · rw [if_neg hr]
      by_cases hx : x.2 = q
      · have hbq : ¬(b.2 = q) := by
          intro h2
          exact hr (le_of_eq (h2.trans hx.symm))
        simp [List.filter_cons, hbq, ih, hx]
      · simp [List.filter_cons, ih, hx]

/-- The modelled sort is stable: for every quantity value, the entries with
that value come out in their input order. -/
theorem filter_insertionSort (q : ℤ) (l : List (String × ℤ)) :
    (List.insertionSort qtyGE l).filter (fun y => y.2 == q)
      = l.filter (fun y => y.2 == q) := by
  induction l with
  | nil => rfl
  | cons a t ih =>
    rw [List.insertionSort, filter_orderedInsert]
    by_cases h : a.2 = q
    · simp [List.filter_cons, h, ih]
    · simp [List.filter_cons, h, ih]

/-! Claim theorems. -/

/-- Claim C1, amended: for a checkout that commits, the stock written for
each line equals the line's cached stock snapshot minus its quantity and is
never below zero; it equals the prior catalog stock minus the quantity when
the snapshot matches the catalog (but not in general, see the
counterexample). -/
theorem checkout_commit_stock_spec (cart : List CartItem) (db : DB)
    (h1 : cart ≠ []) (h2 : ∀ i ∈ cart, i.qty ≤ i.stock) :
    (checkout cart db true (fun _ => true)).1 = CheckoutResult.success ∧
    (checkout cart db true (fun _ => true)).2.products
      = db.products.map (stockStep cart (fun _ => true)) ∧
    ∀ p i, cart.find? (fun j => j.id == p.id && (fun _ => true) j) = some i →
      (stockStep cart (fun _ => true) p).stock = i.stock - i.qty ∧
      0 ≤ (stockStep cart (fun _ => true) p).stock ∧
      (i.stock = p.stock → (stockStep cart (fun _ => true) p).stock = p.stock - i.qty) := by
  have hE : cart.isEmpty = false := by
    simpa [List.isEmpty_iff] using h1
  have hA : cart.any (fun i => decide (i.stock < i.qty)) = false := by
    simp only [List.any_eq_false, decide_eq_true_eq, not_lt]
    exact h2
  have hAll : cart.all (fun _ => true) = true := by simp
  refine ⟨?_, ?_, ?_⟩
  · simp [checkout, hE, hA, hAll]
  · simp [checkout, hE, hA, hAll]
  · intro p i hfind
    have hmem : i ∈ cart := List.mem_of_find?_eq_some hfind
    have hle := h2 i hmem
    have hs : stockStep cart (fun _ => true) p = { p with stock := i.stock - i.qty } := by
      simp only [stockStep, hfind]
    rw [hs]
    refine ⟨rfl, ?_, fun hst => ?_⟩
    · show (0 : ℤ) ≤ i.stock - i.qty
      omega
    · show i.stock - i.qty = p.stock - i.qty
      omega

/-- Claim C1, witness: a concrete committed checkout at the stock cap. -/
theorem checkout_commit_stock_spec_witness :
    ([wItem1] ≠ ([] : List CartItem)) ∧ (∀ i ∈ [wItem1], i.qty ≤ i.stock) ∧
    ((checkout [wItem1] wDB1 true (fun _ => true)).1 = CheckoutResult.success ∧
      (checkout [wItem1] wDB1 true (fun _ => true)).2.products
        = wDB1.products.map (stockStep [wItem1] (fun _ => true)) ∧
      ∀ p i, List.find? (fun j => j.id == p.id && (fun _ => true) j) [wItem1] = some i →
        (stockStep [wItem1] (fun _ => true) p).stock = i.stock - i.qty ∧
        0 ≤ (stockStep [wItem1] (fun _ => true) p).stock ∧
        (i.stock = p.stock → (stockStep [wItem1] (fun _ => true) p).stock = p.stock - i.qty)) :=
  ⟨by decide, by decide, checkout_commit_stock_spec [wItem1] wDB1 (by decide) (by decide)⟩

/-- Claim C1, counterexample: with a stale cached snapshot the checkout
commits and the stock it writes (2) differs from the prior catalog stock
minus the quantity (2 - 3). -/
theorem stale_snapshot_write_ne_prior_minus_qty :
    (checkout [cexItem1] cexDB1 true (fun _ => true)).1 = CheckoutResult.success ∧
    cexDB1.products.map Product.stock = [2] ∧
    [cexItem1].map CartItem.qty = [3] ∧
    (checkout [cexItem1] cexDB1 true (fun _ => true)).2.products.map Product.stock = [2] ∧
    ((2 : ℤ) ≠ 2 - 3) :=
  ⟨by decide, by decide, by decide, by decide, by decide⟩

/-- Claim C2: when the batch insert into the sales table fails, checkout
aborts with the ledger-error result and the database (products and ledger
alike) is unchanged, so the whole checkout can be retried. -/
theorem checkout_ledger_fail_frame (cart : List CartItem) (db : DB) (stockOk : CartItem → Bool)
    (h1 : cart ≠ []) (h2 : ∀ i ∈ cart, i.qty ≤ i.stock) :
    checkout cart db false stockOk = (CheckoutResult.ledgerError, db) := by
  have hE : cart.isEmpty = false := by
    simpa [List.isEmpty_iff] using h1
  have hA : cart.any (fun i => decide (i.stock < i.qty)) = false := by
    simp only [List.any_eq_false, decide_eq_true_eq, not_lt]
    exact h2
  simp [checkout, hE, hA]

/-- Claim C2, witness: a concrete ledger-failure checkout. -/
theorem checkout_ledger_fail_frame_witness :
    ([wItem2] ≠ ([] : List CartItem)) ∧ (∀ i ∈ [wItem2], i.qty ≤ i.stock) ∧
    checkout [wItem2] wDB2 false (fun _ => true) = (CheckoutResult.ledgerError, wDB2) :=
  ⟨by decide, by decide,
    checkout_ledger_fail_frame [wItem2] wDB2 (fun _ => true) (by decide) (by decide)⟩

/-- Claim C3, amended: when the ledger insert succeeds but a stock update
fails, the sale rows stay in the ledger and the cart is retained, but the
user is shown the checkout-failed alert, not a success with a warning. -/
theorem checkout_stock_fail_spec (cart : List CartItem) (db : DB) (stockOk : CartItem → Bool)
    (h1 : cart ≠ []) (h2 : ∀ i ∈ cart, i.qty ≤ i.stock)
    (h3 : ∃ i ∈ cart, stockOk i = false) :
    (checkout cart db true stockOk).1 = CheckoutResult.stockError ∧
    isReportedSuccess (checkout cart db true stockOk).1 = false ∧
    (checkout cart db true stockOk).2.sales = db.sales ++ cart.map saleOf ∧
    cartAfter (checkout cart db true stockOk).1 cart = cart := by
  have hE : cart.isEmpty = false := by
    simpa [List.isEmpty_iff] using h1
  have hA : cart.any (fun i => decide (i.stock < i.qty)) = false := by
    simp only [List.any_eq_false, decide_eq_true_eq, not_lt]
    exact h2
  have hAll : cart.all stockOk = false := by
    obtain ⟨i, hi, hfalse⟩ := h3
    simp only [List.all_eq_false]
    exact ⟨i, hi, by simp [hfalse]⟩
  have hr : (checkout cart db true stockOk).1 = CheckoutResult.stockError := by
    simp [checkout, hE, hA, hAll]
  refine ⟨hr, by simp [hr, isReportedSuccess], ?_, by simp [hr, cartAfter]⟩
  simp [checkout, hE, hA, hAll]

/-- Claim C3, witness: a concrete checkout whose only stock update fails. -/
theorem checkout_stock_fail_spec_witness :
    ([cexItem3] ≠ ([] : List CartItem)) ∧ (∀ i ∈ [cexItem3], i.qty ≤ i.stock) ∧
    (∃ i ∈ [cexItem3], (fun (_ : CartItem) => false) i = false) ∧
    ((checkout [cexItem3] cexDB3 true (fun _ => false)).1 = CheckoutResult.stockError ∧
      isReportedSuccess (checkout [cexItem3] cexDB3 true (fun _ => false)).1 = false ∧
      (checkout [cexItem3] cexDB3 true (fun _ => false)).2.sales
        = cexDB3.sales ++ [cexItem3].map saleOf ∧
      cartAfter (checkout [cexItem3] cexDB3 true (fun _ => false)).1 [cexItem3] = [cexItem3]) :=
  ⟨by decide, by decide, ⟨cexItem3, by decide, rfl⟩,
    checkout_stock_fail_spec [cexItem3] cexDB3 (fun _ => false) (by decide) (by decide)
      ⟨cexItem3, by decide, rfl⟩⟩

/-- Claim C3, counterexample: ledger written (one sale row durable) yet the
result is the stock-error path, which is reported as a failure. -/
theorem stock_fail_reported_as_failure :
    (checkout [cexItem3] cexDB3 true (fun _ => false)).1 = CheckoutResult.stockError ∧
    isReportedSuccess (checkout [cexItem3] cexDB3 true (fun _ => false)).1 = false ∧
    (checkout [cexItem3] cexDB3 true (fun _ => false)).2.sales.length = 1 :=
  ⟨by decide, by decide, by decide⟩

/-- Claim C4, amended: the checkout validates every line against the cached
stock snapshot held in the cart (not a re-read of the catalog); when any
line exceeds its snapshot the whole request fails with the out-of-stock
result and nothing is committed. -/
theorem checkout_cached_validation (cart : List CartItem) (db : DB) (insertOk : Bool)
    (stockOk : CartItem → Bool) (h : ∃ i ∈ cart, i.stock < i.qty) :
    checkout cart db insertOk stockOk = (CheckoutResult.outOfStock, db) := by
  obtain ⟨i, hi, hlt⟩ := h
  have hE : cart.isEmpty = false := by
    simp only [List.isEmpty_eq_false_iff_exists_mem]
    exact ⟨i, hi⟩
  have hA : cart.any (fun i => decide (i.stock < i.qty)) = true := by
    simp only [List.any_eq_true, decide_eq_true_eq]
    exact ⟨i, hi, hlt⟩
  simp [checkout, hE, hA]

/-- Claim C4, witness: a line over its own snapshot is rejected wholesale. -/
theorem checkout_cached_validation_witness :
    (∃ i ∈ [wItem4], i.stock < i.qty) ∧
    checkout [wItem4] cexDB4 true (fun _ => true) = (CheckoutResult.outOfStock, cexDB4) :=
  ⟨⟨wItem4, by decide, by decide⟩,
    checkout_cached_validation [wItem4] cexDB4 true (fun _ => true)
      ⟨wItem4, by decide, by decide⟩⟩

/-- Claim C4, counterexample: a line whose quantity (6) exceeds the current
catalog stock (1) still commits, because only the stale snapshot (8) is
checked — no catalog re-read happens. -/
theorem stale_stock_checkout_commits :
    (checkout [cexItem4] cexDB4 true (fun _ => true)).1 = CheckoutResult.success ∧
    (∃ i ∈ [cexItem4], ∃ p ∈ cexDB4.products, i.id = p.id ∧ p.stock < i.qty) := by
  refine ⟨by decide, cexItem4, by decide, ?_⟩
  refine ⟨{ id := 4, name := "sandal", price := 60, sellingPrice := some 60,
            costPrice := 30, stock := 1 }, by decide, by decide, by decide⟩

/-- Claim C5, amended: checkout-written ledger rows always carry discount 0
and satisfy the total and profit formulas (profit with the JS fallback
selling price); the checkout takes no discount input, so Scenario A yields
total 450, profit 150, discount 0 and stock 7 — not total 405. -/
theorem saleLineItem_amounts_spec :
    (∀ item : CartItem,
      (saleOf item).discount = 0 ∧
      (saleOf item).unit_price = item.price ∧
      (saleOf item).quantity = item.qty ∧
      (saleOf item).total
        = (saleOf item).unit_price * ((saleOf item).quantity : ℚ)
            * (1 - (saleOf item).discount / 100) ∧
      (saleOf item).profit
        = (jsOr item.sellingPrice item.price - item.costPrice) * (item.qty : ℚ)) ∧
    (checkout [scenItem] scenDB true (fun _ => true)).1 = CheckoutResult.success ∧
    (checkout [scenItem] scenDB true (fun _ => true)).2.sales.map Sale.total = [450] ∧
    (checkout [scenItem] scenDB true (fun _ => true)).2.sales.map Sale.profit = [150] ∧
    (checkout [scenItem] scenDB true (fun _ => true)).2.sales.map Sale.discount = [0] ∧
    (checkout [scenItem] scenDB true (fun _ => true)).2.products.map Product.stock = [7] := by
  refine ⟨fun item => ⟨rfl, rfl, rfl, ?_, rfl⟩, by decide, ?_, ?_, ?_, by decide⟩
  · simp [saleOf]
  · simp [checkout, scenItem, scenDB, saleOf, jsOr]
    norm_num
  · simp [checkout, scenItem, scenDB, saleOf, jsOr]
    norm_num
  · simp [checkout, scenItem, scenDB, saleOf, jsOr]

/-- Claim C5, counterexample: a manual-form sale with a 10 percent discount
on a base of 100 stores total 90 but the claimed formula evaluates to 81,
and the Scenario A checkout stores total 450, not 405. -/
theorem total_invariant_fails_on_manual_discount :
    (manualSaleRecord cexForm5 none).total = 90 ∧
    (manualSaleRecord cexForm5 none).unit_price
        * ((manualSaleRecord cexForm5 none).quantity : ℚ)
        * (1 - (manualSaleRecord cexForm5 none).discount / 100) = 81 ∧
    (manualSaleRecord cexForm5 none).total
      ≠ (manualSaleRecord cexForm5 none).unit_price
          * ((manualSaleRecord cexForm5 none).quantity : ℚ)
          * (1 - (manualSaleRecord cexForm5 none).discount / 100) ∧
    (checkout [scenItem] scenDB true (fun _ => true)).2.sales.map Sale.total ≠ [405] := by
  refine ⟨?_, ?_, ?_, ?_⟩
  · norm_num [manualSaleRecord, calculateFinalAmount, cexForm5]
  · norm_num [manualSaleRecord, calculateFinalAmount, cexForm5]
  · norm_num [manualSaleRecord, calculateFinalAmount, cexForm5]
  · simp [checkout, scenItem, scenDB, saleOf, jsOr]
    norm_num

/-- Claim C6, amended: no payment-method validation exists anywhere. The
cart checkout takes no payment method and always records Cash; the manual
form records whatever string the form state holds, unvalidated. -/
theorem payment_method_unvalidated :
    (∀ item : CartItem, (saleOf item).payment_method = "Cash") ∧
    ∀ (d : SaleFormData) (ca : Option ℚ) (db : DB),
      jsTrim d.customer ≠ "" → 0 < calculateFinalAmount d ca →
      handleSubmit d ca true db
        = some { products := db.products, sales := db.sales ++ [manualSaleRecord d ca] } ∧
      (manualSaleRecord d ca).payment_method = d.payment_method := by
  refine ⟨fun _ => rfl, fun d ca db h1 h2 => ⟨?_, rfl⟩⟩
  have hcond : ¬(jsTrim d.customer = "" ∨ calculateFinalAmount d ca ≤ 0) := by
    push_neg
    exact ⟨h1, h2⟩
  rw [handleSubmit, if_neg hcond]
  rfl

/-- Claim C6, witness: a concrete unvalidated Bitcoin submission. -/
theorem payment_method_unvalidated_witness :
    jsTrim wForm6.customer ≠ "" ∧ 0 < calculateFinalAmount wForm6 none ∧
    (handleSubmit wForm6 none true wDB6
        = some { products := wDB6.products,
                 sales := wDB6.sales ++ [manualSaleRecord wForm6 none] } ∧
      (manualSaleRecord wForm6 none).payment_method = wForm6.payment_method) :=
  ⟨by decide, by norm_num [calculateFinalAmount, wForm6],
    payment_method_unvalidated.2 wForm6 none wDB6 (by decide)
      (by norm_num [calculateFinalAmount, wForm6])⟩

/-- Claim C6, counterexample: a sale with payment method Bitcoin — not one
of the configured options — is recorded in the ledger, not rejected. -/
theorem bitcoin_sale_accepted :
    handleSubmit cexForm6 none true cexDB6
      = some { products := [], sales := [manualSaleRecord cexForm6 none] } ∧
    (manualSaleRecord cexForm6 none).payment_method = "Bitcoin" ∧
    "Bitcoin" ∉ (["Cash", "M-Pesa"] : List String) := by
  have hname : ¬(jsTrim cexForm6.customer = "") := by decide
  have hamt : ¬(calculateFinalAmount cexForm6 none ≤ 0) := by
    norm_num [calculateFinalAmount, cexForm6]
  refine ⟨?_, rfl, by decide⟩
  rw [handleSubmit, if_neg (by push_neg; exact ⟨hname, lt_of_not_le hamt⟩)]
  rfl

/-- Claim C7, amended: adding a product merges into the existing line (so a
cart with distinct product ids keeps them distinct, and the line for the
product gains exactly one unit, appended fresh with quantity 1 when
absent), but there is no stock cap and no stock-limit report on add. -/
theorem addToCart_merge_spec (cart : List CartItem) (p : Product)
    (h : (cart.map CartItem.id).Nodup) :
    ((addToCart cart p).map CartItem.id).Nodup ∧
    cartQty (addToCart cart p) p.id = cartQty cart p.id + 1 ∧
    (addToCart cart p).map CartItem.id
      = (if p.id ∈ cart.map CartItem.id then cart.map CartItem.id
         else cart.map CartItem.id ++ [p.id]) := by
  by_cases hmem : cart.any (fun i => i.id == p.id) = true
  · have hmem2 : p.id ∈ cart.map CartItem.id := by
      obtain ⟨i, hi, hid⟩ := List.any_eq_true.mp hmem
      exact List.mem_map.mpr ⟨i, hi, by simpa using hid⟩
    have hids : (addToCart cart p).map CartItem.id = cart.map CartItem.id := by
      rw [addToCart, if_pos hmem, List.map_map]
      refine List.map_congr_left fun i _ => ?_
      by_cases hid : i.id = p.id <;> simp [hid]
    refine ⟨hids ▸ h, ?_, by rw [hids, if_pos hmem2]⟩
    rw [addToCart, if_pos hmem, cartQty, cartQty, bumpQty_find?]
    obtain ⟨i, hi, hid⟩ := List.any_eq_true.mp hmem
    have hsome : (cart.find? (fun i => i.id == p.id)).isSome := by
      rw [List.find?_isSome]
      exact ⟨i, hi, hid⟩
    obtain ⟨j, hj⟩ := Option.isSome_iff_exists.mp hsome
    have hjid : j.id = p.id := by
      have := List.find?_some hj
      simpa using this
    rw [hj]
    simp [hjid]
  · have hmem2 : p.id ∉ cart.map CartItem.id := by
      intro hc
      obtain ⟨i, hi, hid⟩ := List.mem_map.mp hc
      exact absurd (List.any_eq_true.mpr ⟨i, hi, by simpa using hid⟩) hmem
    have hnone : cart.find? (fun i => i.id == p.id) = none := by
      rw [List.find?_eq_none]
      intro i hi hpi
      exact hmem (List.any_eq_true.mpr ⟨i, hi, hpi⟩)
    have hids : (addToCart cart p).map CartItem.id
        = cart.map CartItem.id ++ [p.id] := by
      rw [addToCart, if_neg hmem]
      simp [cartItemOfProduct]
    refine ⟨?_, ?_, by rw [hids, if_neg hmem2]⟩
    · rw [hids]
      simp [List.nodup_append, h, hmem2]
    · rw [addToCart, if_neg hmem, cartQty, cartQty, List.find?_append, hnone]
      simp [cartItemOfProduct]

/-- Claim C7, witness: adding to an empty cart appends a fresh line. -/
theorem addToCart_merge_spec_witness :
    (([] : List CartItem).map CartItem.id).Nodup ∧
    (((addToCart [] wProd7).map CartItem.id).Nodup ∧
      cartQty (addToCart [] wProd7) wProd7.id = cartQty [] wProd7.id + 1 ∧
      (addToCart [] wProd7).map CartItem.id
        = (if wProd7.id ∈ ([] : List CartItem).map CartItem.id
           then ([] : List CartItem).map CartItem.id
           else ([] : List CartItem).map CartItem.id ++ [wProd7.id])) :=
  ⟨by decide, addToCart_merge_spec [] wProd7 (by decide)⟩

/-- Claim C7, counterexample: adding a stock-1 product to a cart already
holding its one unit is not a no-op — the line grows to quantity 2, above
the stock, and no stock-limit condition exists to be reported. -/
theorem addToCart_exceeds_stock :
    (addToCart cexCart7 cexProd7).map CartItem.qty = [2] ∧
    cexCart7.map CartItem.qty = [1] ∧
    cexCart7.map CartItem.stock = [1] ∧
    (∃ i ∈ addToCart cexCart7 cexProd7, i.stock < i.qty) := by
  refine ⟨by decide, by decide, by decide, ?_⟩
  refine ⟨{ cartItemOfProduct cexProd7 with qty := 2 }, ?_, by decide⟩
  decide

/-- Claim C8, amended: updateQuantity applies a relative change; a result
above the cached stock or at most 0 leaves the line unchanged (no clamping
to the bounds, no removal), otherwise the new quantity is stored, and on a
cart of positive quantities no line is ever removed. -/
theorem updateQuantity_spec (cart : List CartItem) (pid : Nat) (change : ℤ)
    (h : ∀ i ∈ cart, 0 < i.qty) :
    updateQuantity cart pid change = cart.map (updStep pid change) ∧
    (updateQuantity cart pid change).length = cart.length ∧
    (∀ i ∈ updateQuantity cart pid change, 0 < i.qty) ∧
    ∀ i ∈ cart, i.id = pid →
      (updStep pid change i).qty
        = (if i.stock < i.qty + change ∨ i.qty + change ≤ 0 then i.qty
           else i.qty + change) := by
  have hpos : ∀ i ∈ cart.map (updStep pid change), 0 < i.qty := by
    intro i hi
    obtain ⟨j, hj, rfl⟩ := List.mem_map.mp hi
    exact updStep_pos pid change j (h j hj)
  have hfe : updateQuantity cart pid change = cart.map (updStep pid change) := by
    rw [updateQuantity, List.filter_eq_self.mpr]
    intro a ha
    exact decide_eq_true (hpos a ha)
  refine ⟨hfe, by rw [hfe, List.length_map], by rw [hfe]; exact hpos, ?_⟩
  intro i _ hid
  unfold updStep
  rw [if_pos hid]
  by_cases hgt : i.qty + change > i.stock
  · rw [if_pos hgt, if_pos (Or.inl (by omega))]
  · rw [if_neg hgt]
    by_cases hp2 : i.qty + change > 0
    · rw [if_pos hp2, if_neg (by omega)]
    · rw [if_neg hp2, if_pos (Or.inr (by omega))]

/-- Claim C8, witness: a concrete in-range quantity change. -/
theorem updateQuantity_spec_witness :
    (∀ i ∈ cexCart8, 0 < i.qty) ∧
    (updateQuantity cexCart8 1 1 = cexCart8.map (updStep 1 1) ∧
      (updateQuantity cexCart8 1 1).length = cexCart8.length ∧
      (∀ i ∈ updateQuantity cexCart8 1 1, 0 < i.qty) ∧
      ∀ i ∈ cexCart8, i.id = 1 →
        (updStep 1 1 i).qty
          = (if i.stock < i.qty + 1 ∨ i.qty + 1 ≤ 0 then i.qty else i.qty + 1)) :=
  ⟨by decide, updateQuantity_spec cexCart8 1 1 (by decide)⟩

/-- Claim C8, counterexample: requesting a change to a nonpositive quantity
does not remove the line, and a change past the stock is not clamped to the
stock — both are no-ops on the quantity-2, stock-5 line. -/
theorem updateQuantity_noop_not_clamp :
    updateQuantity cexCart8 1 (-5) = cexCart8 ∧
    cexCart8 ≠ [] ∧
    updateQuantity cexCart8 1 10 = cexCart8 ∧
    cexCart8.map CartItem.qty = [2] ∧
    cexCart8.map CartItem.stock = [5] :=
  ⟨by decide, by decide, by decide, by decide, by decide⟩

/-- Claim C9, amended: topSelling groups ledger entries by product name and
holds, per name, the sum of that name's quantities; the output is a
permutation of the grouped list, sorted descending by summed quantity, and
the sort is stable — within each quantity value the groups keep their
first-occurrence order from the ledger scan, not ascending name order. -/
theorem topSelling_spec (sales : List Sale) :
    (∀ name, jsVal (groupQuantities sales) name = sumQtyFor sales name) ∧
    List.Perm (topSelling sales) (groupQuantities sales) ∧
    List.Sorted qtyGE (topSelling sales) ∧
    (∀ q : ℤ, (topSelling sales).filter (fun y => y.2 == q)
      = (groupQuantities sales).filter (fun y => y.2 == q)) := by
  refine ⟨fun name => ?_, ?_, ?_, fun q => ?_⟩
  · rw [groupQuantities, jsVal_group]
    simp [jsVal_nil]
  · exact List.perm_insertionSort qtyGE (groupQuantities sales)
  · exact List.sorted_insertionSort qtyGE (groupQuantities sales)
  · exact filter_insertionSort q (groupQuantities sales)

/-- Claim C9, counterexample: two names with equal summed quantity come out
in ledger first-occurrence order (b before a), violating the claimed
ascending-name tie-break. -/
theorem topSelling_tie_not_by_name :
    topSelling cexSales9 = [("b", 1), ("a", 1)] ∧
    sortedByQtyThenName (topSelling cexSales9) = false :=
  ⟨by decide, by decide⟩

/-- Claim C10: a manual sale that passes validation inserts exactly one
ledger row and leaves the products table untouched; the row has quantity 1,
unit price equal to the final discounted amount, and profit 0.3 times it. -/
theorem manual_sale_frame_spec (d : SaleFormData) (ca : Option ℚ) (db : DB)
    (h1 : jsTrim d.customer ≠ "") (h2 : 0 < calculateFinalAmount d ca) :
    handleSubmit d ca true db
      = some { products := db.products, sales := db.sales ++ [manualSaleRecord d ca] } ∧
    (manualSaleRecord d ca).quantity = 1 ∧
    (manualSaleRecord d ca).unit_price = calculateFinalAmount d ca ∧
    (manualSaleRecord d ca).total = calculateFinalAmount d ca ∧
    (manualSaleRecord d ca).profit = calculateFinalAmount d ca * (3 / 10) := by
  have hcond : ¬(jsTrim d.customer = "" ∨ calculateFinalAmount d ca ≤ 0) := by
    push_neg
    exact ⟨h1, h2⟩
  refine ⟨?_, rfl, rfl, rfl, rfl⟩
  rw [handleSubmit, if_neg hcond]
  rfl

/-- Claim C10, witness: a concrete valid manual sale. -/
theorem manual_sale_frame_spec_witness :
    jsTrim wForm10.customer ≠ "" ∧ 0 < calculateFinalAmount wForm10 none ∧
    (handleSubmit wForm10 none true wDB10
        = some { products := wDB10.products,
                 sales := wDB10.sales ++ [manualSaleRecord wForm10 none] } ∧
      (manualSaleRecord wForm10 none).quantity = 1 ∧
      (manualSaleRecord wForm10 none).unit_price = calculateFinalAmount wForm10 none ∧
      (manualSaleRecord wForm10 none).total = calculateFinalAmount wForm10 none ∧
      (manualSaleRecord wForm10 none).profit = calculateFinalAmount wForm10 none * (3 / 10)) :=
  ⟨by decide, by norm_num [calculateFinalAmount, wForm10],
    manual_sale_frame_spec wForm10 none wDB10 (by decide)
      (by norm_num [calculateFinalAmount, wForm10])⟩

end POS
